import Mathlib

/-!
# The `kraft cloud quotas` subcommand: validation and dispatch

A shallow embedding of `internal/cli/kraft/cloud/quotas/quotas.go`.

* Go `error` values are the inductive `GoError`; `nil` is `none`.
* `fmt.Errorf` is embedded once per format string shape used by the file.
* The collaborators the file calls into (metro/token population, credential
  lookup, the users client, the three printers) are fields of `Collaborators`.
  `Auth` and `Report` are the opaque types of `config.AuthConfig` and of the
  quota response.
* `Run` returns the list of collaborator calls it performed, in order, next to
  its error result, so that "which printer ran, how often, with what" is a
  statement about a list.
-/

namespace quotas

/-! ## Errors -/

/-- Go error values. `errorString` is what `fmt.Errorf` builds from a format
without `%w` (and what `errors.New` builds); `wrapError` is what `fmt.Errorf`
builds from a format with one `%w`: the formatted message and the wrapped
error. -/
inductive GoError where
  | errorString (s : String)
  | wrapError (msg : String) (err : GoError)
  deriving DecidableEq, Repr

namespace GoError

/-- The `Error()` method. -/
def Error : GoError → String
  | errorString s => s
  | wrapError msg _ => msg

/-- The `Unwrap()` method, as seen by `errors.Unwrap`. -/
def Unwrap : GoError → Option GoError
  | errorString _ => none
  | wrapError _ err => some err

end GoError

/-- `fmt.Errorf(msg)` for a format string without verbs. -/
def Errorf (msg : String) : GoError :=
  GoError.errorString msg

/-- `fmt.Errorf(ctx + "%s", s)`. -/
def ErrorfS (ctx : String) (s : String) : GoError :=
  GoError.errorString (ctx ++ s)

/-- `fmt.Errorf(ctx + "%w", err)`. -/
def ErrorfW (ctx : String) (err : GoError) : GoError :=
  GoError.wrapError (ctx ++ err.Error) err

/-! ## Data model -/

/-- The command options, `type QuotasOptions struct`. -/
structure QuotasOptions where
  Limits : Bool
  Features : Bool
  Output : String
  metro : String
  token : String
  deriving DecidableEq, Repr

/-- What `utils.PopulateMetroToken(cmd, &metro, &token)` leaves behind: the two
pointed-to strings after the call, and the returned error. -/
structure Populated where
  metro : String
  token : String
  err : Option GoError
  deriving DecidableEq, Repr

/-- The collaborators of the command. Each is a function of the arguments the
command passes; the ambient `cmd` and `ctx` are fixed for one invocation. -/
structure Collaborators (Auth Report : Type) where
  /-- `utils.PopulateMetroToken`, from the current contents of the two strings. -/
  PopulateMetroToken : String → String → Populated
  /-- `config.GetKraftCloudAuthConfig(ctx, token)`. -/
  GetKraftCloudAuthConfig : String → Except GoError Auth
  /-- `config.GetKraftCloudTokenAuthConfig(auth)`. -/
  GetKraftCloudTokenAuthConfig : Auth → String
  /-- `kraftcloud.NewUsersClient(kraftcloud.WithToken(tok)).WithMetro(metro).Quotas(ctx)`,
  from `tok` and `metro`. -/
  Quotas : String → String → Except GoError Report
  /-- `utils.PrintQuotasLimits(ctx, format, resp)`. -/
  PrintQuotasLimits : String → Report → Option GoError
  /-- `utils.PrintQuotasFeatures(ctx, format, resp)`. -/
  PrintQuotasFeatures : String → Report → Option GoError
  /-- `utils.PrintQuotas(ctx, auth, format, resp)`. -/
  PrintQuotas : Auth → String → Report → Option GoError

/-- One call made by `Run`, with the arguments passed. -/
inductive Call (Auth Report : Type) where
  | GetKraftCloudAuthConfig (token : String)
  | Quotas (tok : String) (metro : String)
  | PrintQuotasLimits (format : String) (resp : Report)
  | PrintQuotasFeatures (format : String) (resp : Report)
  | PrintQuotas (auth : Auth) (format : String) (resp : Report)
  deriving DecidableEq, Repr

namespace Call

variable {Auth Report : Type}

/-- Is the call the remote quota request. -/
def isQuotas : Call Auth Report → Bool
  | Quotas _ _ => true
  | _ => false

/-- Is the call the limits printer. -/
def isPrintQuotasLimits : Call Auth Report → Bool
  | PrintQuotasLimits _ _ => true
  | _ => false

/-- Is the call the features printer. -/
def isPrintQuotasFeatures : Call Auth Report → Bool
  | PrintQuotasFeatures _ _ => true
  | _ => false

/-- Is the call the full-report printer. -/
def isPrintQuotas : Call Auth Report → Bool
  | PrintQuotas _ _ _ => true
  | _ => false

/-- Is the call any of the three printers. -/
def isPrint (c : Call Auth Report) : Bool :=
  c.isPrintQuotasLimits || c.isPrintQuotasFeatures || c.isPrintQuotas

end Call

/-! ## Operations -/

/-- Modelled from the spec: `utils.IsValidOutputFormat`, which lives in the
`utils` package of this repository and is not part of the sources at hand. The
spec gives the recognised formats as `table`, `yaml`, `json`, `list`. -/
def IsValidOutputFormat (format : String) : Bool :=
  format == "table" || format == "yaml" || format == "json" || format == "list"

variable {Auth Report : Type}

/-- The method `(opts *QuotasOptions) Pre`: the options after the call, and the
returned error. -/
def Pre (env : Collaborators Auth Report) (opts : QuotasOptions) :
    QuotasOptions × Option GoError :=
  let p := env.PopulateMetroToken opts.metro opts.token
  let opts := { opts with metro := p.metro, token := p.token }
  match p.err with
  | some err => (opts, some (ErrorfW "could not populate metro and token: " err))
  | none =>
    if !IsValidOutputFormat opts.Output then
      (opts, some (ErrorfS "invalid output format: " opts.Output))
    else if opts.Limits && opts.Features then
      (opts, some (Errorf "cannot use both limits and features flags"))
    else
      (opts, none)

/-- The method `(opts *QuotasOptions) Run`: the calls performed, in order, and
the returned error. -/
def Run (env : Collaborators Auth Report) (opts : QuotasOptions) :
    List (Call Auth Report) × Option GoError :=
  match env.GetKraftCloudAuthConfig opts.token with
  | .error err =>
    ([.GetKraftCloudAuthConfig opts.token],
      some (ErrorfW "could not retrieve credentials: " err))
  | .ok auth =>
    let tok := env.GetKraftCloudTokenAuthConfig auth
    match env.Quotas tok opts.metro with
    | .error err =>
      ([.GetKraftCloudAuthConfig opts.token, .Quotas tok opts.metro],
        some (ErrorfW "could not get quotas: " err))
    | .ok resp =>
      if opts.Limits then
        ([.GetKraftCloudAuthConfig opts.token, .Quotas tok opts.metro,
          .PrintQuotasLimits opts.Output resp],
          env.PrintQuotasLimits opts.Output resp)
      else if opts.Features then
        ([.GetKraftCloudAuthConfig opts.token, .Quotas tok opts.metro,
          .PrintQuotasFeatures opts.Output resp],
          env.PrintQuotasFeatures opts.Output resp)
      else
        ([.GetKraftCloudAuthConfig opts.token, .Quotas tok opts.metro,
          .PrintQuotas auth opts.Output resp],
          env.PrintQuotas auth opts.Output resp)

/-! ## Concrete collaborators for the closed statements -/

/-- The options as the argument parser leaves them with no flag given. -/
def defaultOptions : QuotasOptions :=
  { Limits := false, Features := false, Output := "list", metro := "", token := "" }

/-- Collaborators that all succeed: the metro resolves to `fra0`, the token to
`t0k`, the report is the number `7`, every printer writes without error. -/
def okEnv : Collaborators String Nat :=
  { PopulateMetroToken := fun _ _ => { metro := "fra0", token := "t0k", err := none }
    GetKraftCloudAuthConfig := fun token => .ok ("auth-" ++ token)
    GetKraftCloudTokenAuthConfig := fun auth => auth
    Quotas := fun _ _ => .ok 7
    PrintQuotasLimits := fun _ _ => none
    PrintQuotasFeatures := fun _ _ => none
    PrintQuotas := fun _ _ _ => none }

/-- As `okEnv`, but metro and token cannot be resolved. -/
def noMetroEnv : Collaborators String Nat :=
  { okEnv with
    PopulateMetroToken := fun m t =>
      { metro := m, token := t, err := some (GoError.errorString "no metro") } }

/-- As `okEnv`, but no credentials are found. -/
def noAuthEnv : Collaborators String Nat :=
  { okEnv with
    GetKraftCloudAuthConfig := fun _ => .error (GoError.errorString "no credentials") }

/-- As `okEnv`, but the remote call is refused. -/
def refusedEnv : Collaborators String Nat :=
  { okEnv with Quotas := fun _ _ => .error (GoError.errorString "connection refused") }

/-- As `okEnv`, but every printer fails to write. -/
def brokenPipeEnv : Collaborators String Nat :=
  { okEnv with
    PrintQuotasLimits := fun _ _ => some (GoError.errorString "broken pipe")
    PrintQuotasFeatures := fun _ _ => some (GoError.errorString "broken pipe")
    PrintQuotas := fun _ _ _ => some (GoError.errorString "broken pipe") }

/-- Both flags given, and an output format the command does not know. -/
def bothFlagsXml : QuotasOptions :=
  { defaultOptions with Limits := true, Features := true, Output := "xml" }

/-- Both flags given, with the JSON output format. -/
def bothFlagsJson : QuotasOptions :=
  { defaultOptions with Limits := true, Features := true, Output := "json" }

/-- Validated options: populated metro and token, no flag. -/
def readyOptions : QuotasOptions :=
  { defaultOptions with metro := "fra0", token := "t0k" }

/-! ## Helper lemmas -/

theorem IsValidOutputFormat_iff (s : String) :
    IsValidOutputFormat s = true ↔ s ∈ ["table", "yaml", "json", "list"] := by
  simp [IsValidOutputFormat, or_assoc]

theorem IsValidOutputFormat_eq_false_iff (s : String) :
    IsValidOutputFormat s = false ↔ s ∉ ["table", "yaml", "json", "list"] := by
  rw [← IsValidOutputFormat_iff]; simp

theorem invalid_ne_conflicting (s : String) :
    ErrorfS "invalid output format: " s ≠
      Errorf "cannot use both limits and features flags" := by
  intro h
  simp only [ErrorfS, Errorf, GoError.errorString.injEq] at h
  have h2 := congrArg String.data h
  simp [String.data_append] at h2

theorem Pre_populate_error (env : Collaborators Auth Report) (o : QuotasOptions)
    (e : GoError) (h : (env.PopulateMetroToken o.metro o.token).err = some e) :
    (Pre env o).2 = some (ErrorfW "could not populate metro and token: " e) := by
  simp [Pre, h]

theorem Pre_invalid_output (env : Collaborators Auth Report) (o : QuotasOptions)
    (h : (env.PopulateMetroToken o.metro o.token).err = none)
    (hv : IsValidOutputFormat o.Output = false) :
    (Pre env o).2 = some (ErrorfS "invalid output format: " o.Output) := by
  simp [Pre, h, hv]

theorem Pre_valid_output (env : Collaborators Auth Report) (o : QuotasOptions)
    (h : (env.PopulateMetroToken o.metro o.token).err = none)
    (hv : IsValidOutputFormat o.Output = true) :
    (Pre env o).2 =
      if o.Limits && o.Features then
        some (Errorf "cannot use both limits and features flags")
      else none := by
  cases hl : o.Limits <;> cases hf : o.Features <;> simp [Pre, h, hv, hl, hf]

theorem Pre_fst (env : Collaborators Auth Report) (o : QuotasOptions) :
    (Pre env o).1 =
      { o with metro := (env.PopulateMetroToken o.metro o.token).metro,
               token := (env.PopulateMetroToken o.metro o.token).token } := by
  simp only [Pre]
  split
  · rfl
  · split
    · rfl
    · split <;> rfl

theorem Run_auth_error (env : Collaborators Auth Report) (o : QuotasOptions) (e : GoError)
    (h : env.GetKraftCloudAuthConfig o.token = .error e) :
    Run env o = ([.GetKraftCloudAuthConfig o.token],
      some (ErrorfW "could not retrieve credentials: " e)) := by
  simp [Run, h]

theorem Run_quotas_error (env : Collaborators Auth Report) (o : QuotasOptions)
    (auth : Auth) (e : GoError)
    (ha : env.GetKraftCloudAuthConfig o.token = .ok auth)
    (hq : env.Quotas (env.GetKraftCloudTokenAuthConfig auth) o.metro = .error e) :
    Run env o =
      ([.GetKraftCloudAuthConfig o.token,
        .Quotas (env.GetKraftCloudTokenAuthConfig auth) o.metro],
       some (ErrorfW "could not get quotas: " e)) := by
  simp [Run, ha, hq]

theorem Run_ok (env : Collaborators Auth Report) (o : QuotasOptions)
    (auth : Auth) (resp : Report)
    (ha : env.GetKraftCloudAuthConfig o.token = .ok auth)
    (hq : env.Quotas (env.GetKraftCloudTokenAuthConfig auth) o.metro = .ok resp) :
    Run env o =
      if o.Limits then
        ([.GetKraftCloudAuthConfig o.token,
          .Quotas (env.GetKraftCloudTokenAuthConfig auth) o.metro,
          .PrintQuotasLimits o.Output resp],
          env.PrintQuotasLimits o.Output resp)
      else if o.Features then
        ([.GetKraftCloudAuthConfig o.token,
          .Quotas (env.GetKraftCloudTokenAuthConfig auth) o.metro,
          .PrintQuotasFeatures o.Output resp],
          env.PrintQuotasFeatures o.Output resp)
      else
        ([.GetKraftCloudAuthConfig o.token,
          .Quotas (env.GetKraftCloudTokenAuthConfig auth) o.metro,
          .PrintQuotas auth o.Output resp],
          env.PrintQuotas auth o.Output resp) := by
  simp [Run, ha, hq]

/-! ## Validation: `Pre` -/

/-- C1, as stated, fails: with both flags set and the output format `xml`, metro
and token resolving fine, `Pre` returns the invalid-output-format error and not
the conflicting-flags error. -/
theorem C1_counterexample :
    bothFlagsXml.Limits = true ∧ bothFlagsXml.Features = true ∧
    (Pre okEnv bothFlagsXml).2 = some (GoError.errorString "invalid output format: xml") ∧
    (Pre okEnv bothFlagsXml).2 ≠
      some (Errorf "cannot use both limits and features flags") := by
  decide

/-- C1, amended: with `Limits` and `Features` both true, `Pre` fails whatever
`Output` is and however metro/token resolution ends; when resolution succeeds and
`Output` is one of the four recognised formats, the error is the conflicting-flags
error, with the message `cannot use both limits and features flags`. -/
theorem C1_both_flags_rejected (env : Collaborators Auth Report) (o : QuotasOptions)
    (hl : o.Limits = true) (hf : o.Features = true) :
    (Pre env o).2 ≠ none ∧
    ((env.PopulateMetroToken o.metro o.token).err = none →
      o.Output ∈ ["table", "yaml", "json", "list"] →
      (Pre env o).2 = some (Errorf "cannot use both limits and features flags") ∧
      ((Pre env o).2.map GoError.Error) =
        some "cannot use both limits and features flags") := by
  constructor
  · cases hp : (env.PopulateMetroToken o.metro o.token).err with
    | some e => rw [Pre_populate_error env o e hp]; simp
    | none =>
      cases hv : IsValidOutputFormat o.Output with
      | false => rw [Pre_invalid_output env o hp hv]; simp
      | true => rw [Pre_valid_output env o hp hv]; simp [hl, hf]
  · intro hp hv
    rw [Pre_valid_output env o hp ((IsValidOutputFormat_iff _).2 hv)]
    simp [hl, hf, Errorf, GoError.Error]

/-- Witness of C1 amended: both flags with `-o json` against collaborators that
all succeed. -/
theorem C1_both_flags_rejected_witness :
    (Pre okEnv bothFlagsJson).2 ≠ none ∧
    (Pre okEnv bothFlagsJson).2 =
      some (Errorf "cannot use both limits and features flags") :=
  ⟨(C1_both_flags_rejected okEnv bothFlagsJson rfl rfl).1,
   ((C1_both_flags_rejected okEnv bothFlagsJson rfl rfl).2 rfl (by decide)).1⟩

/-- C2, as stated, fails: with the output format `xml` and metro/token resolution
failing, `Pre` returns the wrapped resolution error and not the
invalid-output-format error. -/
theorem C2_counterexample :
    IsValidOutputFormat bothFlagsXml.Output = false ∧
    (Pre noMetroEnv bothFlagsXml).2 =
      some (GoError.wrapError "could not populate metro and token: no metro"
        (GoError.errorString "no metro")) ∧
    (Pre noMetroEnv bothFlagsXml).2 ≠
      some (ErrorfS "invalid output format: " bothFlagsXml.Output) := by
  decide

/-- C2, amended: when metro/token resolution succeeds and `Output` is none of
`table`, `yaml`, `json`, `list`, `Pre` fails with the invalid-output-format error,
whose message is `invalid output format: ` followed by exactly the `Output`
value. -/
theorem C2_invalid_output_rejected (env : Collaborators Auth Report) (o : QuotasOptions)
    (hp : (env.PopulateMetroToken o.metro o.token).err = none)
    (hv : o.Output ∉ ["table", "yaml", "json", "list"]) :
    IsValidOutputFormat o.Output = false ∧
    (Pre env o).2 = some (ErrorfS "invalid output format: " o.Output) ∧
    (Pre env o).2.map GoError.Error = some ("invalid output format: " ++ o.Output) := by
  have hv2 := (IsValidOutputFormat_eq_false_iff _).2 hv
  rw [Pre_invalid_output env o hp hv2]
  exact ⟨hv2, rfl, rfl⟩

/-- Witness of C2 amended: `-o xml` against collaborators that all succeed. -/
theorem C2_invalid_output_rejected_witness :
    (Pre okEnv bothFlagsXml).2.map GoError.Error = some "invalid output format: xml" :=
  (C2_invalid_output_rejected okEnv bothFlagsXml rfl (by decide)).2.2

/-- C3: `Pre` returns no error exactly when metro/token resolution succeeds,
`Output` is one of the four recognised formats and `Limits` and `Features` are not
both true. Options that pass `Pre` therefore have at most one of the two flags
set, hold the resolved metro and token, and keep `Limits`, `Features` and `Output`
as they were. -/
theorem C3_Pre_succeeds_iff (env : Collaborators Auth Report) (o : QuotasOptions) :
    ((Pre env o).2 = none ↔
      (env.PopulateMetroToken o.metro o.token).err = none ∧
      o.Output ∈ ["table", "yaml", "json", "list"] ∧
      ¬ (o.Limits = true ∧ o.Features = true)) ∧
    ((Pre env o).2 = none →
      ¬ ((Pre env o).1.Limits = true ∧ (Pre env o).1.Features = true) ∧
      (Pre env o).1.metro = (env.PopulateMetroToken o.metro o.token).metro ∧
      (Pre env o).1.token = (env.PopulateMetroToken o.metro o.token).token ∧
      (Pre env o).1.Limits = o.Limits ∧
      (Pre env o).1.Features = o.Features ∧
      (Pre env o).1.Output = o.Output) := by
  have key : (Pre env o).2 = none ↔
      (env.PopulateMetroToken o.metro o.token).err = none ∧
      o.Output ∈ ["table", "yaml", "json", "list"] ∧
      ¬ (o.Limits = true ∧ o.Features = true) := by
    rw [← IsValidOutputFormat_iff]
    cases hp : (env.PopulateMetroToken o.metro o.token).err with
    | some e => rw [Pre_populate_error env o e hp]; simp
    | none =>
      cases hv : IsValidOutputFormat o.Output with
      | false => rw [Pre_invalid_output env o hp hv]; simp
      | true =>
        rw [Pre_valid_output env o hp hv]
        cases o.Limits <;> cases o.Features <;> simp
  refine ⟨key, fun h => ?_⟩
  rw [Pre_fst]
  exact ⟨(key.1 h).2.2, rfl, rfl, rfl, rfl, rfl⟩

/-- Witness of C3: the default options pass `Pre` and come out with the resolved
metro and token. -/
theorem C3_Pre_succeeds_iff_witness :
    (Pre okEnv defaultOptions).2 = none ∧
    (Pre okEnv defaultOptions).1.metro = "fra0" ∧
    (Pre okEnv defaultOptions).1.token = "t0k" :=
  have h : (Pre okEnv defaultOptions).2 = none :=
    (C3_Pre_succeeds_iff okEnv defaultOptions).1.2 ⟨rfl, by decide, by decide⟩
  ⟨h, ((C3_Pre_succeeds_iff okEnv defaultOptions).2 h).2.1,
    ((C3_Pre_succeeds_iff okEnv defaultOptions).2 h).2.2.1⟩

/-- C10: `Pre` reports one error, chosen by a fixed precedence. A failed
metro/token resolution gives the `could not populate metro and token` error
wrapping the cause, whatever `Output`, `Limits` and `Features` are. Otherwise an
invalid `Output` gives the invalid-output-format error, also with both flags set.
The conflicting-flags error comes back exactly when resolution succeeded, `Output`
is valid and both flags are set. -/
theorem C10_Pre_error_precedence (env : Collaborators Auth Report) (o : QuotasOptions) :
    (∀ e, (env.PopulateMetroToken o.metro o.token).err = some e →
      (Pre env o).2 = some (ErrorfW "could not populate metro and token: " e) ∧
      (Pre env o).2.bind GoError.Unwrap = some e) ∧
    ((env.PopulateMetroToken o.metro o.token).err = none →
      o.Output ∉ ["table", "yaml", "json", "list"] →
      (Pre env o).2 = some (ErrorfS "invalid output format: " o.Output)) ∧
    ((Pre env o).2 = some (Errorf "cannot use both limits and features flags") ↔
      (env.PopulateMetroToken o.metro o.token).err = none ∧
      o.Output ∈ ["table", "yaml", "json", "list"] ∧
      o.Limits = true ∧ o.Features = true) := by
  refine ⟨fun e hp => ?_, fun hp hv => ?_, ?_⟩
  · rw [Pre_populate_error env o e hp]; exact ⟨rfl, rfl⟩
  · exact Pre_invalid_output env o hp ((IsValidOutputFormat_eq_false_iff _).2 hv)
  · rw [← IsValidOutputFormat_iff]
    cases hp : (env.PopulateMetroToken o.metro o.token).err with
    | some e => rw [Pre_populate_error env o e hp]; simp [ErrorfW, Errorf]
    | none =>
      cases hv : IsValidOutputFormat o.Output with
      | false =>
        rw [Pre_invalid_output env o hp hv]
        simpa using invalid_ne_conflicting o.Output
      | true =>
        rw [Pre_valid_output env o hp hv]
        cases o.Limits <;> cases o.Features <;> simp

/-- Witness of C10: with both flags and `-o xml`, a failed resolution wins over the
format error, and the format error wins over the flag conflict. -/
theorem C10_Pre_error_precedence_witness :
    (Pre noMetroEnv bothFlagsXml).2 =
      some (ErrorfW "could not populate metro and token: " (GoError.errorString "no metro")) ∧
    (Pre okEnv bothFlagsXml).2 = some (ErrorfS "invalid output format: " "xml") ∧
    (Pre okEnv bothFlagsJson).2 =
      some (Errorf "cannot use both limits and features flags") :=
  ⟨((C10_Pre_error_precedence noMetroEnv bothFlagsXml).1 _ rfl).1,
   (C10_Pre_error_precedence okEnv bothFlagsXml).2.1 rfl (by decide),
   (C10_Pre_error_precedence okEnv bothFlagsJson).2.2.2 ⟨rfl, by decide, rfl, rfl⟩⟩

/-! ## Dispatch: `Run` -/

/-- C4: with `Limits` and `Features` both false, any `Output`, and credential
resolution and the remote call succeeding, `Run` calls the full-report printer
`PrintQuotas` exactly once, with the options `Output` and the report of the remote
call, calls neither `PrintQuotasLimits` nor `PrintQuotasFeatures`, and returns what
`PrintQuotas` returned. -/
theorem C4_full_report (env : Collaborators Auth Report) (o : QuotasOptions)
    (auth : Auth) (resp : Report)
    (hl : o.Limits = false) (hf : o.Features = false)
    (ha : env.GetKraftCloudAuthConfig o.token = .ok auth)
    (hq : env.Quotas (env.GetKraftCloudTokenAuthConfig auth) o.metro = .ok resp) :
    (Run env o).1.filter Call.isPrint = [Call.PrintQuotas auth o.Output resp] ∧
    (Run env o).1.countP Call.isPrintQuotas = 1 ∧
    (Run env o).1.countP Call.isPrintQuotasLimits = 0 ∧
    (Run env o).1.countP Call.isPrintQuotasFeatures = 0 ∧
    (Run env o).2 = env.PrintQuotas auth o.Output resp := by
  rw [Run_ok env o auth resp ha hq]
  simp [hl, hf, Call.isPrint, Call.isPrintQuotas, Call.isPrintQuotasLimits,
    Call.isPrintQuotasFeatures, List.filter, List.countP, List.countP.go]

/-- Witness of C4: the default invocation against collaborators that all
succeed. -/
theorem C4_full_report_witness :
    (Run okEnv readyOptions).1.filter Call.isPrint = [Call.PrintQuotas "auth-t0k" "list" 7] ∧
    (Run okEnv readyOptions).2 = none :=
  ⟨(C4_full_report okEnv readyOptions "auth-t0k" 7 rfl rfl rfl rfl).1,
   (C4_full_report okEnv readyOptions "auth-t0k" 7 rfl rfl rfl rfl).2.2.2.2⟩

/-- C5: with `Limits` true, whatever `Features` is, and credential resolution and
the remote call succeeding, `Run` calls only the limits printer
`PrintQuotasLimits`, exactly once, with the options `Output` and the returned
report, and calls neither the features printer nor the full-report printer. -/
theorem C5_limits_only (env : Collaborators Auth Report) (o : QuotasOptions)
    (auth : Auth) (resp : Report)
    (hl : o.Limits = true)
    (ha : env.GetKraftCloudAuthConfig o.token = .ok auth)
    (hq : env.Quotas (env.GetKraftCloudTokenAuthConfig auth) o.metro = .ok resp) :
    (Run env o).1.filter Call.isPrint = [Call.PrintQuotasLimits o.Output resp] ∧
    (Run env o).1.countP Call.isPrintQuotasLimits = 1 ∧
    (Run env o).1.countP Call.isPrintQuotasFeatures = 0 ∧
    (Run env o).1.countP Call.isPrintQuotas = 0 ∧
    (Run env o).2 = env.PrintQuotasLimits o.Output resp := by
  rw [Run_ok env o auth resp ha hq]
  simp [hl, Call.isPrint, Call.isPrintQuotas, Call.isPrintQuotasLimits,
    Call.isPrintQuotasFeatures, List.filter, List.countP, List.countP.go]

/-- Witness of C5: both flags set (as `Run` would see them if called without
`Pre`), the limits printer alone runs. -/
theorem C5_limits_only_witness :
    (Run okEnv bothFlagsJson).1.filter Call.isPrint = [Call.PrintQuotasLimits "json" 7] :=
  (C5_limits_only okEnv bothFlagsJson "auth-" 7 rfl rfl rfl).1

/-- C6: with `Features` true and `Limits` false, and credential resolution and the
remote call succeeding, `Run` calls only the features printer
`PrintQuotasFeatures`, exactly once, with the options `Output` and the returned
report, and calls neither the limits printer nor the full-report printer. -/
theorem C6_features_only (env : Collaborators Auth Report) (o : QuotasOptions)
    (auth : Auth) (resp : Report)
    (hf : o.Features = true) (hl : o.Limits = false)
    (ha : env.GetKraftCloudAuthConfig o.token = .ok auth)
    (hq : env.Quotas (env.GetKraftCloudTokenAuthConfig auth) o.metro = .ok resp) :
    (Run env o).1.filter Call.isPrint = [Call.PrintQuotasFeatures o.Output resp] ∧
    (Run env o).1.countP Call.isPrintQuotasFeatures = 1 ∧
    (Run env o).1.countP Call.isPrintQuotasLimits = 0 ∧
    (Run env o).1.countP Call.isPrintQuotas = 0 ∧
    (Run env o).2 = env.PrintQuotasFeatures o.Output resp := by
  rw [Run_ok env o auth resp ha hq]
  simp [hl, hf, Call.isPrint, Call.isPrintQuotas, Call.isPrintQuotasLimits,
    Call.isPrintQuotasFeatures, List.filter, List.countP, List.countP.go]

/-- Witness of C6: `--features -o yaml` against collaborators that all succeed. -/
theorem C6_features_only_witness :
    (Run okEnv { readyOptions with Features := true, Output := "yaml" }).1.filter Call.isPrint =
      [Call.PrintQuotasFeatures "yaml" 7] :=
  (C6_features_only okEnv { readyOptions with Features := true, Output := "yaml" }
    "auth-t0k" 7 rfl rfl rfl rfl).1

/-- C7: for any options, when credential resolution succeeds and the remote quota
call fails with cause `e`, `Run` calls no printer and returns an error that wraps
`e` and whose message is `could not get quotas: ` followed by the message of
`e`. -/
theorem C7_remote_failure (env : Collaborators Auth Report) (o : QuotasOptions)
    (auth : Auth) (e : GoError)
    (ha : env.GetKraftCloudAuthConfig o.token = .ok auth)
    (hq : env.Quotas (env.GetKraftCloudTokenAuthConfig auth) o.metro = .error e) :
    (Run env o).1.filter Call.isPrint = [] ∧
    (Run env o).2 = some (ErrorfW "could not get quotas: " e) ∧
    (Run env o).2.bind GoError.Unwrap = some e ∧
    (Run env o).2.map GoError.Error = some ("could not get quotas: " ++ e.Error) := by
  rw [Run_quotas_error env o auth e ha hq]
  simp [Call.isPrint, Call.isPrintQuotas, Call.isPrintQuotasLimits,
    Call.isPrintQuotasFeatures, List.filter, ErrorfW, GoError.Unwrap, GoError.Error]

/-- Witness of C7: the remote call is refused; the message names both the step and
the cause. -/
theorem C7_remote_failure_witness :
    (Run refusedEnv readyOptions).1.filter Call.isPrint = [] ∧
    (Run refusedEnv readyOptions).2.map GoError.Error =
      some "could not get quotas: connection refused" :=
  ⟨(C7_remote_failure refusedEnv readyOptions "auth-t0k"
      (GoError.errorString "connection refused") rfl rfl).1,
   (C7_remote_failure refusedEnv readyOptions "auth-t0k"
      (GoError.errorString "connection refused") rfl rfl).2.2.2⟩

/-- C8: for any options, when credential resolution for the options token fails
with cause `e`, `Run` returns an error that wraps `e` with the message
`could not retrieve credentials: ` followed by the message of `e`, makes no remote
quota call and calls no printer. -/
theorem C8_credential_failure (env : Collaborators Auth Report) (o : QuotasOptions)
    (e : GoError)
    (ha : env.GetKraftCloudAuthConfig o.token = .error e) :
    (Run env o).2 = some (ErrorfW "could not retrieve credentials: " e) ∧
    (Run env o).2.bind GoError.Unwrap = some e ∧
    (Run env o).2.map GoError.Error =
      some ("could not retrieve credentials: " ++ e.Error) ∧
    (Run env o).1.filter Call.isQuotas = [] ∧
    (Run env o).1.filter Call.isPrint = [] ∧
    (Run env o).1 = [Call.GetKraftCloudAuthConfig o.token] := by
  rw [Run_auth_error env o e ha]
  simp [Call.isPrint, Call.isPrintQuotas, Call.isPrintQuotasLimits, Call.isQuotas,
    Call.isPrintQuotasFeatures, List.filter, ErrorfW, GoError.Unwrap, GoError.Error]

/-- Witness of C8: no credentials are found for the token. -/
theorem C8_credential_failure_witness :
    (Run noAuthEnv readyOptions).2.map GoError.Error =
      some "could not retrieve credentials: no credentials" ∧
    (Run noAuthEnv readyOptions).1 = [Call.GetKraftCloudAuthConfig "t0k"] :=
  ⟨(C8_credential_failure noAuthEnv readyOptions
      (GoError.errorString "no credentials") rfl).2.2.1,
   (C8_credential_failure noAuthEnv readyOptions
      (GoError.errorString "no credentials") rfl).2.2.2.2.2⟩

/-- C9, as stated, fails: with credentials and the remote call succeeding and the
full-report printer failing with `broken pipe`, `Run` returns that very error,
which wraps nothing; it is not the cause wrapped under any context. -/
theorem C9_counterexample :
    brokenPipeEnv.GetKraftCloudAuthConfig readyOptions.token = .ok "auth-t0k" ∧
    brokenPipeEnv.Quotas "auth-t0k" readyOptions.metro = .ok 7 ∧
    brokenPipeEnv.PrintQuotas "auth-t0k" readyOptions.Output 7 =
      some (GoError.errorString "broken pipe") ∧
    (Run brokenPipeEnv readyOptions).2 = some (GoError.errorString "broken pipe") ∧
    (Run brokenPipeEnv readyOptions).2.bind GoError.Unwrap = none ∧
    ¬ ∃ ctx, (Run brokenPipeEnv readyOptions).2 =
      some (ErrorfW ctx (GoError.errorString "broken pipe")) := by
  refine ⟨rfl, rfl, rfl, by decide, by decide, ?_⟩
  rintro ⟨ctx, h⟩
  have h2 : (Run brokenPipeEnv readyOptions).2 = some (GoError.errorString "broken pipe") := by
    decide
  rw [h2] at h
  simp [ErrorfW] at h

/-- C9, amended: the failures of metro/token resolution, of credential resolution
and of the remote call come back wrapped with a message naming the step
(`could not populate metro and token: `, `could not retrieve credentials: `,
`could not get quotas: `). When credentials and the remote call succeed, `Run`
returns the result of the selected printer as it is: a printer failing with `e`
makes `Run` return `e` itself. -/
theorem C9_error_propagation (env : Collaborators Auth Report) (o : QuotasOptions) :
    (∀ e, (env.PopulateMetroToken o.metro o.token).err = some e →
      (Pre env o).2 = some (ErrorfW "could not populate metro and token: " e)) ∧
    (∀ e, env.GetKraftCloudAuthConfig o.token = .error e →
      (Run env o).2 = some (ErrorfW "could not retrieve credentials: " e)) ∧
    (∀ auth e, env.GetKraftCloudAuthConfig o.token = .ok auth →
      env.Quotas (env.GetKraftCloudTokenAuthConfig auth) o.metro = .error e →
      (Run env o).2 = some (ErrorfW "could not get quotas: " e)) ∧
    (∀ auth resp, env.GetKraftCloudAuthConfig o.token = .ok auth →
      env.Quotas (env.GetKraftCloudTokenAuthConfig auth) o.metro = .ok resp →
      (Run env o).2 =
        if o.Limits then env.PrintQuotasLimits o.Output resp
        else if o.Features then env.PrintQuotasFeatures o.Output resp
        else env.PrintQuotas auth o.Output resp) := by
  refine ⟨fun e hp => Pre_populate_error env o e hp, fun e ha => ?_,
    fun auth e ha hq => ?_, fun auth resp ha hq => ?_⟩
  · rw [Run_auth_error env o e ha]
  · rw [Run_quotas_error env o auth e ha hq]
  · rw [Run_ok env o auth resp ha hq]
    cases o.Limits <;> cases o.Features <;> simp

/-- Witness of C9 amended: a failing limits printer; its error is what `Run`
returns. -/
theorem C9_error_propagation_witness :
    (Run brokenPipeEnv bothFlagsJson).2 = some (GoError.errorString "broken pipe") :=
  (C9_error_propagation brokenPipeEnv bothFlagsJson).2.2.2 "auth-" 7 rfl rfl

end quotas
